import Mathlib

/-!
Verification of the toktab CLI (an HTTP client for an LLM-pricing catalog,
plus pure formatting functions and CLI command wiring).

Embedding conventions:
* Python floats are modelled as exact rationals (`ℚ`); all arithmetic in the
  source (multiplication by powers of ten, comparisons against decimal
  constants) is exact at the inputs the theorems use.
* Python's fixed-point float formatting `f"{x:.nf}"` is modelled by
  `formatFixed`: round half to even at `n` decimal digits, then print.
* `str.rstrip(c)` with a one-character argument is modelled by `rstrip`.
* A JSON dict from the API is modelled as a structure of `Option` fields;
  `none` stands for an absent key, so `data.get(k)` is the field itself and
  `data.get(k, d)` is `Option.getD`.
* The single `httpx.get` call is modelled by an oracle from the request to an
  `HttpOutcome` (a status/body response, a timeout, or a network error); the
  traced variants (`get_modelT`, `searchT`) also return the list of requests
  issued, so request-counting claims are statable.
* Raised exceptions are modelled with `Except`: `TokTabError` has exactly the
  two concrete exception classes the source ever raises.
-/

namespace Toktab

/-- The decimal digit character for `d < 10`. -/
def digitChar (d : Nat) : Char := Char.ofNat (48 + d)

/-- Decimal digits of `n`, most significant first; `fuel` bounds the recursion
(enough fuel is supplied by `natRepr`). -/
def natDigitsAux : Nat → Nat → List Char
  | 0, _ => []
  | fuel+1, n => if n < 10 then [digitChar n] else natDigitsAux fuel (n / 10) ++ [digitChar (n % 10)]

/-- Decimal rendering of a natural number, as Python's `str` renders it. -/
def natRepr (n : Nat) : String := String.mk (natDigitsAux (n + 1) n)

/-- Decimal rendering of an integer, as Python's `str` renders it. -/
def intRepr (m : Int) : String :=
  if m < 0 then "-" ++ natRepr m.natAbs else natRepr m.natAbs

/-- Python `s.rstrip(c)` for a one-character `c`: drop every trailing
occurrence of `c`. -/
def rstrip (s : String) (c : Char) : String :=
  String.mk ((s.data.reverse.dropWhile (fun x => x = c)).reverse)

/-- Pad a string with leading zero characters up to length `n`. -/
def padZeros (s : String) (n : Nat) : String :=
  String.mk (List.replicate (n - s.length) '0') ++ s

/-- Python `int(x)` on a float value: truncation toward zero. -/
def pyInt (q : ℚ) : ℤ := if q < 0 then ⌈q⌉ else ⌊q⌋

/-- Round to the nearest integer, ties to the even integer (the rounding of
Python's fixed-point float formatting). -/
def roundHalfEven (q : ℚ) : ℤ :=
  if q - ⌊q⌋ < 1/2 then ⌊q⌋
  else if 1/2 < q - ⌊q⌋ then ⌊q⌋ + 1
  else if ⌊q⌋ % 2 = 0 then ⌊q⌋ else ⌊q⌋ + 1

/-- Print the integer `m` of scaled units as a fixed-point numeral with `n`
digits after the point. -/
def formatFixedInt (m : ℤ) (n : Nat) : String :=
  let sign := if m < 0 then "-" else ""
  let a := m.natAbs
  if n = 0 then sign ++ natRepr a
  else sign ++ natRepr (a / 10 ^ n) ++ "." ++ padZeros (natRepr (a % 10 ^ n)) n

/-- Python `f"{q:.nf}"`: fixed-point formatting with `n` decimal digits,
rounding half to even. -/
def formatFixed (q : ℚ) (n : Nat) : String :=
  formatFixedInt (roundHalfEven (q * 10 ^ n)) n

/-! ## src/toktab/api.py -/

/-- `BASE_URL` of `api.py`. -/
def BASE_URL : String := "https://toktab.com/api"

/-- The two concrete exception classes raised by `api.py` (`ModelNotFoundError`
and `APIError`, both subclasses of the never-raised base `TokTabError`). -/
inductive TokTabError where
  | modelNotFound (message : String)
  | apiError (message : String)
deriving DecidableEq

/-- The user-visible message an exception carries (`str(e)`). -/
def TokTabError.message : TokTabError → String
  | modelNotFound m => m
  | apiError m => m

/-- The outcome of one `httpx.get` call: a response with a status code and a
parsed JSON body, an `httpx.TimeoutException`, or another `httpx.RequestError`
(a network error). -/
inductive HttpOutcome (α : Type) where
  | response (status : Nat) (body : α)
  | timeout
  | networkError (message : String)

/-- `httpx.Response.is_success`: `raise_for_status` raises `HTTPStatusError`
exactly when the status is not a 2xx code. -/
def is_success (status : Nat) : Bool := 200 ≤ status && 300 > status

/-- Model pricing record: the JSON dict `get_model` returns, restricted to the
fields the verified claims touch (capability flags are not consulted by any
claim). `none` models an absent key. -/
structure ModelData where
  litellm_model_name : Option String := none
  litellm_provider : Option String := none
  slug : Option String := none
  input_cost_per_token : Option ℚ := none
  output_cost_per_token : Option ℚ := none
  cache_read_input_token_cost : Option ℚ := none
  cache_creation_input_token_cost : Option ℚ := none
  max_input_tokens : Option ℤ := none
  max_output_tokens : Option ℤ := none
  max_tokens : Option ℤ := none
deriving DecidableEq

/-- One record of a search response's `results` list, restricted to the fields
`display_search_results` reads. -/
structure SearchRecord where
  name : Option String := none
  slug : Option String := none
  provider : Option String := none
  input_cost_per_token : Option ℚ := none
  output_cost_per_token : Option ℚ := none
deriving DecidableEq

/-- The JSON dict `search` returns: `results`, `count` and `query`. -/
structure SearchData where
  results : Option (List SearchRecord) := none
  count : Option ℤ := none
  query : Option String := none
deriving DecidableEq

/-- `api.get_model(slug)`, as a function of the single HTTP call's outcome:
a 404 raises `ModelNotFoundError` (not caught by the handlers, which only
catch `httpx` exceptions); `raise_for_status` on another non-2xx status is
caught and re-raised as `APIError("API error: {status}")`; a timeout and a
network error are caught and re-raised as `APIError`. -/
def get_model (slug : String) (outcome : HttpOutcome ModelData) :
    Except TokTabError ModelData :=
  match outcome with
  | .response status body =>
      if status = 404 then
        .error (.modelNotFound ("Model '" ++ slug ++ "' not found"))
      else if is_success status then
        .ok body
      else
        .error (.apiError ("API error: " ++ natRepr status))
  | .timeout => .error (.apiError "Request timed out. Please try again.")
  | .networkError e => .error (.apiError ("Network error: " ++ e))

/-- `api.search(query, limit)`, as a function of the single HTTP call's
outcome: `raise_for_status` on a non-2xx status is caught and re-raised as
`APIError`, with status 400 mapped to `APIError("Invalid search query")`;
a timeout and a network error are caught and re-raised as `APIError`. -/
def search (query : String) (limit : ℤ) (outcome : HttpOutcome SearchData) :
    Except TokTabError SearchData :=
  match outcome with
  | .response status body =>
      if is_success status then
        .ok body
      else if status = 400 then
        .error (.apiError "Invalid search query")
      else
        .error (.apiError ("API error: " ++ natRepr status))
  | .timeout => .error (.apiError "Request timed out. Please try again.")
  | .networkError e => .error (.apiError ("Network error: " ++ e))

/-- The default of `search`'s `limit` parameter (`limit: int = 20`). -/
def search_default_limit : ℤ := 20

/-- The `limit` value `search` puts in the request parameters:
`min(limit, 50)`. -/
def search_sent_limit (limit : ℤ) : ℤ := min limit 50

/-- An HTTP GET request: the URL and the query parameters passed to
`httpx.get` (parameter values stringified, as httpx sends them). -/
structure HttpRequest where
  url : String
  params : List (String × String)
deriving DecidableEq

/-- The request `get_model(slug)` issues: `f"{BASE_URL}/{slug}/"`, no
parameters. -/
def get_model_request (slug : String) : HttpRequest :=
  { url := BASE_URL ++ "/" ++ slug ++ "/", params := [] }

/-- The request `search(query, limit)` issues: `f"{BASE_URL}/search"` with
`params = {"q": query, "limit": min(limit, 50)}`. -/
def search_request (query : String) (limit : ℤ) : HttpRequest :=
  { url := BASE_URL ++ "/search",
    params := [("q", query), ("limit", intRepr (search_sent_limit limit))] }

/-- One `httpx.get` call against an oracle for the network: returns the
outcome and the one-element log of requests issued by this call. -/
def httpx_get {α : Type} (oracle : HttpRequest → HttpOutcome α)
    (req : HttpRequest) : HttpOutcome α × List HttpRequest :=
  (oracle req, [req])

/-- `api.get_model(slug)` with its request log: the body is straight-line
code around a single `httpx.get`, and the exception handlers issue no further
request. -/
def get_modelT (slug : String) (oracle : HttpRequest → HttpOutcome ModelData) :
    Except TokTabError ModelData × List HttpRequest :=
  let r := httpx_get oracle (get_model_request slug)
  (get_model slug r.1, r.2)

/-- `api.search(query, limit)` with its request log. -/
def searchT (query : String) (limit : ℤ)
    (oracle : HttpRequest → HttpOutcome SearchData) :
    Except TokTabError SearchData × List HttpRequest :=
  let r := httpx_get oracle (search_request query limit)
  (search query limit r.1, r.2)

/-! ## src/toktab/display.py -/

/-- `display.format_cost`: cost per token rendered as dollars per million
tokens. -/
def format_cost (cost_per_token : Option ℚ) : String :=
  match cost_per_token with
  | none => "-"
  | some c =>
      if c = 0 then "Free"
      else
        let cost_per_million := c * 1000000
        if cost_per_million < 0.01 then
          "$" ++ formatFixed cost_per_million 4
        else if cost_per_million < 1 then
          "$" ++ rstrip (rstrip (formatFixed cost_per_million 2) '0') '.'
        else
          "$" ++ formatFixed cost_per_million 2

/-- `display.format_tokens`: a token count rendered with a K or M suffix.
Note the source applies `.rstrip("0").rstrip(".")` to the f-string that
already ends in the `"M"`/`"K"` suffix. -/
def format_tokens (tokens : Option ℤ) : String :=
  match tokens with
  | none => "-"
  | some t =>
      if t ≥ 1000000 then
        let value : ℚ := (t : ℚ) / 1000000
        if value = (pyInt value : ℚ) then intRepr (pyInt value) ++ "M"
        else rstrip (rstrip (formatFixed value 1 ++ "M") '0') '.'
      else if t ≥ 1000 then
        let value : ℚ := (t : ℚ) / 1000
        if value = (pyInt value : ℚ) then intRepr (pyInt value) ++ "K"
        else rstrip (rstrip (formatFixed value 1 ++ "K") '0') '.'
      else intRepr t

/-- `display.get_cost_style`: the Rich style for a cost tier. -/
def get_cost_style (cost_per_token : Option ℚ) : String :=
  match cost_per_token with
  | none => "green"
  | some c =>
      if c = 0 then "green"
      else
        let cost_per_million := c * 1000000
        if cost_per_million < 1 then "green"
        else if cost_per_million < 10 then "yellow"
        else "red"

/-- The numeric rank of a cost style, for stating monotonicity of
`get_cost_style` in the cost. -/
def styleTier (s : String) : Nat :=
  if s = "green" then 0 else if s = "yellow" then 1 else 2

/-- Python truthiness of an optional float field (`if x := data.get(k):`):
false for an absent key and for the value 0. -/
def pyTruthyQ : Option ℚ → Bool
  | none => false
  | some x => if x = 0 then false else true

/-- Python truthiness of an optional int field. -/
def pyTruthyZ : Option ℤ → Bool
  | none => false
  | some x => if x = 0 then false else true

/-- The rows of `display_model`'s pricing table: `Input` and `Output` always,
`Cache read` / `Cache write` only when the walrus-tested field is truthy. -/
def display_model_pricing_rows (data : ModelData) : List (String × String) :=
  [("Input", format_cost data.input_cost_per_token),
   ("Output", format_cost data.output_cost_per_token)]
  ++ (if pyTruthyQ data.cache_read_input_token_cost then
        [("Cache read", format_cost data.cache_read_input_token_cost)] else [])
  ++ (if pyTruthyQ data.cache_creation_input_token_cost then
        [("Cache write", format_cost data.cache_creation_input_token_cost)] else [])

/-- The rows of `display_model`'s context-window table: each row only when the
walrus-tested field is truthy. -/
def display_model_context_rows (data : ModelData) : List (String × String) :=
  (if pyTruthyZ data.max_input_tokens then
     [("Max input", format_tokens data.max_input_tokens)] else [])
  ++ (if pyTruthyZ data.max_output_tokens then
        [("Max output", format_tokens data.max_output_tokens)] else [])
  ++ (if pyTruthyZ data.max_tokens then
        [("Max total", format_tokens data.max_tokens)] else [])

/-- The first column (row labels) of a table's rows. -/
def rowKeys (rows : List (String × String)) : List String := rows.map Prod.fst

/-- What `display_search_results` prints on the non-JSON path: either the
no-models message, or a header line followed by a table. -/
inductive SearchRender where
  | jsonDump (data : SearchData)
  | noResults (message : String)
  | table (header : String) (rows : List (String × String × String × String))
deriving DecidableEq

/-- One table row of `display_search_results`: slug (falling back to name,
then `"?"`), provider (falling back to `"-"`), and the two formatted costs. -/
def search_result_row (model : SearchRecord) : String × String × String × String :=
  (model.slug.getD (model.name.getD "?"),
   model.provider.getD "-",
   format_cost model.input_cost_per_token,
   format_cost model.output_cost_per_token)

/-- `display.display_search_results`: JSON dump when the flag is set;
otherwise the no-models message for an empty results list, else the
`Found {count} model(s) for '{query}'` header and one table row per result
record, in list order. -/
def display_search_results (data : SearchData) (json_output : Bool) : SearchRender :=
  if json_output then .jsonDump data
  else
    let results := data.results.getD []
    let count : ℤ := data.count.getD (results.length : ℤ)
    let query := data.query.getD ""
    if results.isEmpty then
      .noResults ("No models found for '" ++ query ++ "'")
    else
      .table ("Found " ++ intRepr count ++ " model(s) for '" ++ query ++ "'")
        (results.map search_result_row)

/-- `display.display_error`: the markup string printed for an error. -/
def display_error (message : String) : String := "[red]Error:[/red] " ++ message

/-! ## src/toktab/cli.py -/

/-- How a CLI command run ends: normal completion, `display_error` plus
exit code 1, or an exception no handler catches. -/
inductive CliResult where
  | success
  | errorExit (displayed : String)
  | uncaught
deriving DecidableEq

/-- The process exit code of a `CliResult` (click exits 0 on normal
completion; an uncaught exception also ends the process with code 1). -/
def exitCode : CliResult → Nat
  | .success => 0
  | .errorExit _ => 1
  | .uncaught => 1

/-- `cli.model_lookup_command` (the dynamic default command): calls
`get_model`, displays the model on success, and on `ModelNotFoundError` or
`APIError` displays the error and exits 1. -/
def model_lookup_command (cmd_name : String) (outcome : HttpOutcome ModelData) :
    CliResult :=
  match get_model cmd_name outcome with
  | .ok _ => .success
  | .error (.modelNotFound m) => .errorExit (display_error m)
  | .error (.apiError m) => .errorExit (display_error m)

/-- `cli.search` subcommand: calls `api.search`, displays the results on
success, and on `APIError` displays the error and raises `SystemExit(1)`;
its handler catches only `APIError`. -/
def search_command (query : String) (limit : ℤ) (outcome : HttpOutcome SearchData) :
    CliResult :=
  match search query limit outcome with
  | .ok _ => .success
  | .error (.apiError m) => .errorExit (display_error m)
  | .error (.modelNotFound _) => .uncaught

/-! ## Helper lemmas -/

/-- A string with a non-empty right part of an append is non-empty. -/
theorem append_ne_empty_of_right (a b : String) (hb : b ≠ "") : a ++ b ≠ "" := by
  intro h
  apply hb
  have hl := congrArg String.length h
  rw [String.length_append] at hl
  have hb0 : b.length = 0 := by
    have : ("" : String).length = 0 := rfl
    omega
  cases b with
  | mk l =>
      cases l with
      | nil => rfl
      | cons c cs => simp [String.length] at hb0

/-- A string with a non-empty left part of an append is non-empty. -/
theorem append_ne_empty_of_left (a b : String) (ha : a ≠ "") : a ++ b ≠ "" := by
  intro h
  apply ha
  have hl := congrArg String.length h
  rw [String.length_append] at hl
  have ha0 : a.length = 0 := by
    have : ("" : String).length = 0 := rfl
    omega
  cases a with
  | mk l =>
      cases l with
      | nil => rfl
      | cons c cs => simp [String.length] at ha0

/-- `api.search` never raises `ModelNotFoundError`: every error branch of its
body constructs an `APIError`. -/
theorem search_never_modelNotFound (q : String) (l : ℤ) (o : HttpOutcome SearchData)
    (m : String) : search q l o ≠ Except.error (TokTabError.modelNotFound m) := by
  cases o with
  | response status body =>
      simp only [search]
      split_ifs <;> simp
  | timeout => simp [search]
  | networkError e => simp [search]

/-! ## Claim theorems -/

/-- C6: each single call of `get_model` or `search` issues exactly one HTTP
GET request — `get_model` to `BASE_URL ++ "/{slug}/"`, `search` to
`BASE_URL ++ "/search"` with `q` and `limit` parameters — and the request log
is the same one-element list for every oracle, so no request is reissued
after a timeout, an error status, or a network failure. -/
theorem single_request_per_call :
    ∀ (slug q : String) (limit : ℤ)
      (o1 : HttpRequest → HttpOutcome ModelData)
      (o2 : HttpRequest → HttpOutcome SearchData),
      (get_modelT slug o1).2 = [get_model_request slug] ∧
      (get_modelT slug o1).2.length = 1 ∧
      (get_model_request slug).url = BASE_URL ++ "/" ++ slug ++ "/" ∧
      (searchT q limit o2).2 = [search_request q limit] ∧
      (searchT q limit o2).2.length = 1 ∧
      (search_request q limit).url = BASE_URL ++ "/search" ∧
      (search_request q limit).params =
        [("q", q), ("limit", intRepr (search_sent_limit limit))] :=
  fun _ _ _ _ _ => ⟨rfl, rfl, rfl, rfl, rfl, rfl, rfl⟩

/-- C3: the `limit` parameter sent in the search request equals
`min(limit, 50)`: it never exceeds 50, any requested limit of at most 50
(including zero or negative values) is sent unchanged, and the default limit
is 20. -/
theorem search_limit_clamping :
    ∀ (q : String) (limit : ℤ),
      (search_request q limit).params = [("q", q), ("limit", intRepr (min limit 50))] ∧
      search_sent_limit limit = min limit 50 ∧
      search_sent_limit limit ≤ 50 ∧
      (limit ≤ 50 → search_sent_limit limit = limit) ∧
      search_default_limit = 20 := by
  intro q limit
  exact ⟨rfl, rfl, min_le_right _ _, fun h => min_eq_left h, rfl⟩

/-- Witness for C3: the clamp at concrete limits, negative and above the cap. -/
theorem search_limit_clamping_witness :
    (-3 : ℤ) ≤ 50 ∧ search_sent_limit (-3) = -3 ∧ search_sent_limit 100 = 50 :=
  ⟨by decide, (search_limit_clamping "x" (-3)).2.2.2.1 (by decide), by decide⟩

/-- C8: a 404 from the search endpoint raises `APIError` with message
`"API error: 404"` (never `ModelNotFoundError`), a 400 raises
`APIError("Invalid search query")`, and `ModelNotFoundError` can only come
from `get_model` (search never returns it; `get_model` does on a 404). -/
theorem search_error_kinds :
    ∀ (q : String) (l : ℤ) (body : SearchData) (o : HttpOutcome SearchData)
      (m : String),
      search q l (.response 404 body) = .error (.apiError "API error: 404") ∧
      search q l (.response 400 body) = .error (.apiError "Invalid search query") ∧
      search q l o ≠ .error (.modelNotFound m) ∧
      get_model "m" (.response 404 {}) =
        .error (.modelNotFound "Model 'm' not found") := by
  intro q l body o m
  refine ⟨?_, ?_, search_never_modelNotFound q l o m, by rfl⟩
  · have hs : ("API error: " ++ natRepr 404 : String) = "API error: 404" := by decide
    simp [search, is_success, hs]
  · simp [search, is_success]

/-- C1: a 404 response makes `get_model` raise `ModelNotFoundError`; a
timeout, any other error status, or a network error makes it raise
`APIError`; a 2xx response succeeds; and every failure of `get_model` or
`search` is one of these two kinds, carrying a non-empty user-visible
message. -/
theorem get_model_error_classification :
    ∀ (slug msg q : String) (status : Nat) (l : ℤ) (body : ModelData)
      (o : HttpOutcome ModelData) (o2 : HttpOutcome SearchData),
      get_model slug (.response 404 body) =
        .error (.modelNotFound ("Model '" ++ slug ++ "' not found")) ∧
      get_model slug .timeout =
        .error (.apiError "Request timed out. Please try again.") ∧
      get_model slug (.networkError msg) =
        .error (.apiError ("Network error: " ++ msg)) ∧
      (status ≠ 404 → is_success status = false →
        get_model slug (.response status body) =
          .error (.apiError ("API error: " ++ natRepr status))) ∧
      (status ≠ 404 → is_success status = true →
        get_model slug (.response status body) = .ok body) ∧
      (∀ e, get_model slug o = .error e →
        ((∃ m, e = .modelNotFound m) ∨ (∃ m, e = .apiError m)) ∧
          e.message ≠ "") ∧
      (∀ e, search q l o2 = .error e →
        (∃ m, e = .apiError m) ∧ e.message ≠ "") := by
  intro slug msg q status l body o o2
  refine ⟨by simp [get_model], rfl, rfl, ?_, ?_, ?_, ?_⟩
  · intro h404 hsucc
    simp [get_model, h404, hsucc]
  · intro h404 hsucc
    simp [get_model, h404, hsucc]
  · intro e he
    cases o with
    | response st bd =>
        simp only [get_model] at he
        split_ifs at he with h1 h2
        · rw [Except.error.injEq] at he
          subst he
          refine ⟨Or.inl ⟨_, rfl⟩, ?_⟩
          exact append_ne_empty_of_right _ _ (by decide)
        · rw [Except.error.injEq] at he
          subst he
          refine ⟨Or.inr ⟨_, rfl⟩, ?_⟩
          exact append_ne_empty_of_left _ _ (by decide)
    | timeout =>
        simp only [get_model, Except.error.injEq] at he
        subst he
        exact ⟨Or.inr ⟨_, rfl⟩, by decide⟩
    | networkError em =>
        simp only [get_model, Except.error.injEq] at he
        subst he
        exact ⟨Or.inr ⟨_, rfl⟩, append_ne_empty_of_left _ _ (by decide)⟩
  · intro e he
    cases o2 with
    | response st bd =>
        simp only [search] at he
        split_ifs at he with h1 h2
        · rw [Except.error.injEq] at he
          subst he
          exact ⟨⟨_, rfl⟩, by decide⟩
        · rw [Except.error.injEq] at he
          subst he
          exact ⟨⟨_, rfl⟩, append_ne_empty_of_left _ _ (by decide)⟩
    | timeout =>
        simp only [search, Except.error.injEq] at he
        subst he
        exact ⟨⟨_, rfl⟩, by decide⟩
    | networkError em =>
        simp only [search, Except.error.injEq] at he
        subst he
        exact ⟨⟨_, rfl⟩, append_ne_empty_of_left _ _ (by decide)⟩

/-- Witness for C1: a 500 response raises `APIError("API error: 500")` and a
204 (non-2xx excluded) succeeds — hypotheses discharged at concrete
statuses. -/
theorem get_model_error_classification_witness :
    (500 : Nat) ≠ 404 ∧ is_success 500 = false ∧
    get_model "gpt-4o" (.response 500 {}) =
      .error (.apiError ("API error: " ++ natRepr 500)) ∧
    (204 : Nat) ≠ 404 ∧ is_success 204 = true ∧
    get_model "gpt-4o" (.response 204 {}) = .ok {} := by
  refine ⟨by decide, by decide, ?_, by decide, by decide, ?_⟩
  · exact (get_model_error_classification "gpt-4o" "" "" 500 20 {} .timeout
      .timeout).2.2.2.1 (by decide) (by decide)
  · exact (get_model_error_classification "gpt-4o" "" "" 204 20 {} .timeout
      .timeout).2.2.2.2.1 (by decide) (by decide)

/-- C2: for both the default model-lookup invocation and the search
subcommand, the exit code is 0 exactly when the operation succeeds, and a
reported `ModelNotFoundError` or `APIError` is displayed via `display_error`
with exit code 1. -/
theorem cli_exit_codes :
    ∀ (cmd_name q : String) (limit : ℤ) (o : HttpOutcome ModelData)
      (o2 : HttpOutcome SearchData),
      (exitCode (model_lookup_command cmd_name o) = 0 ↔
        ∃ d, get_model cmd_name o = .ok d) ∧
      (∀ e, get_model cmd_name o = .error e →
        model_lookup_command cmd_name o = .errorExit (display_error e.message) ∧
        exitCode (model_lookup_command cmd_name o) = 1) ∧
      (exitCode (search_command q limit o2) = 0 ↔
        ∃ d, search q limit o2 = .ok d) ∧
      (∀ e, search q limit o2 = .error e →
        search_command q limit o2 = .errorExit (display_error e.message) ∧
        exitCode (search_command q limit o2) = 1) := by
  intro cmd_name q limit o o2
  refine ⟨?_, ?_, ?_, ?_⟩
  · cases hg : get_model cmd_name o with
    | ok d => simp [model_lookup_command, hg, exitCode]
    | error e => cases e <;> simp [model_lookup_command, hg, exitCode]
  · intro e he
    cases e with
    | modelNotFound m =>
        simp [model_lookup_command, he, exitCode, TokTabError.message]
    | apiError m =>
        simp [model_lookup_command, he, exitCode, TokTabError.message]
  · cases hs : search q limit o2 with
    | ok d => simp [search_command, hs, exitCode]
    | error e =>
        cases e with
        | modelNotFound m => exact absurd hs (search_never_modelNotFound q limit o2 m)
        | apiError m => simp [search_command, hs, exitCode]
  · intro e he
    cases e with
    | modelNotFound m => exact absurd he (search_never_modelNotFound q limit o2 m)
    | apiError m =>
        simp [search_command, he, exitCode, TokTabError.message]

/-- Witness for C2: a timed-out model lookup and a 400 search both display
the error and exit 1. -/
theorem cli_exit_codes_witness :
    model_lookup_command "gpt-4o" .timeout =
      .errorExit (display_error "Request timed out. Please try again.") ∧
    exitCode (model_lookup_command "gpt-4o" .timeout) = 1 ∧
    search_command "claude" 20 (.response 400 {}) =
      .errorExit (display_error "Invalid search query") ∧
    exitCode (search_command "claude" 20 (.response 400 {})) = 1 := by
  have h1 := (cli_exit_codes "gpt-4o" "claude" 20 .timeout (.response 400 {})).2.1
    (.apiError "Request timed out. Please try again.") rfl
  have h2 := (cli_exit_codes "gpt-4o" "claude" 20 .timeout (.response 400 {})).2.2.2
    (.apiError "Invalid search query") (by rfl)
  exact ⟨h1.1, h1.2, h2.1, h2.2⟩

/-- C5: the example characterisation of `format_cost`: `None` renders as
`"-"`, a zero cost as `"Free"`, and a cost of 0.000001 dollars per token
(one dollar per million tokens) as `"$1.00"`. -/
theorem format_cost_examples :
    format_cost none = "-" ∧ format_cost (some 0) = "Free" ∧
    format_cost (some 0.000001) = "$1.00" := by
  refine ⟨rfl, by simp [format_cost], ?_⟩
  have hne : (0.000001 : ℚ) ≠ 0 := by norm_num
  have hm : (0.000001 : ℚ) * 1000000 = 1 := by norm_num
  simp only [format_cost, hm]
  rw [if_neg hne, if_neg (by norm_num : ¬ ((1 : ℚ) < 0.01)),
    if_neg (by norm_num : ¬ ((1 : ℚ) < 1))]
  show "$" ++ formatFixed 1 2 = "$1.00"
  have h100 : (1 : ℚ) * 10 ^ 2 = 100 := by norm_num
  have hfl : ⌊(100 : ℚ)⌋ = 100 := by
    rw [Int.floor_eq_iff]
    norm_num
  have hr : roundHalfEven 100 = 100 := by
    unfold roundHalfEven
    rw [hfl, if_pos (by norm_num)]
  unfold formatFixed
  rw [h100, hr]
  decide

/-- C4 (bug evaluation): at `tokens = 1020000` the scaled value 1.02 is not
an integer and rounds to `"1.0"` at one decimal place, yet the function
returns `"1.0M"` — the `.rstrip("0").rstrip(".")` is applied to the string
that already ends in the `"M"` suffix, so it never strips the `".0"`. -/
theorem format_tokens_keeps_dot_zero :
    format_tokens (some 1020000) = "1.0M" := by
  have hv : ((1020000 : ℤ) : ℚ) / 1000000 = 51 / 50 := by norm_num
  have hflv : ⌊(51 / 50 : ℚ)⌋ = 1 := by
    rw [Int.floor_eq_iff]
    norm_num
  have hpi : pyInt (51 / 50 : ℚ) = 1 := by
    unfold pyInt
    rw [if_neg (by norm_num : ¬ ((51 / 50 : ℚ) < 0)), hflv]
  have hneq : ¬ ((51 / 50 : ℚ) = (pyInt (51 / 50 : ℚ) : ℚ)) := by
    rw [hpi]
    norm_num
  have hff : formatFixed (51 / 50) 1 = "1.0" := by
    unfold formatFixed
    have h10 : (51 / 50 : ℚ) * 10 ^ 1 = 51 / 5 := by norm_num
    have hfl : ⌊(51 / 5 : ℚ)⌋ = 10 := by
      rw [Int.floor_eq_iff]
      norm_num
    have hround : roundHalfEven (51 / 5) = 10 := by
      unfold roundHalfEven
      rw [hfl, if_pos (by push_cast; norm_num)]
    rw [h10, hround]
    decide
  simp only [format_tokens]
  rw [if_pos (by decide : (1020000 : ℤ) ≥ 1000000), hv, if_neg hneq, hff]
  decide

/-- C10: `get_cost_style` returns only `"green"`, `"yellow"` or `"red"`;
`"green"` exactly when the cost is `None`, 0, or below one dollar per million
tokens, `"yellow"` exactly when the per-million cost is at least 1 and below
10, `"red"` exactly when it is at least 10; and the tier is monotone in the
cost. -/
theorem get_cost_style_tiers :
    (∀ c : Option ℚ, get_cost_style c = "green" ∨ get_cost_style c = "yellow" ∨
      get_cost_style c = "red") ∧
    get_cost_style none = "green" ∧
    (∀ x : ℚ, get_cost_style (some x) = "green" ↔ (x = 0 ∨ x * 1000000 < 1)) ∧
    (∀ x : ℚ, get_cost_style (some x) = "yellow" ↔
      (1 ≤ x * 1000000 ∧ x * 1000000 < 10)) ∧
    (∀ x : ℚ, get_cost_style (some x) = "red" ↔ 10 ≤ x * 1000000) ∧
    (∀ a b : ℚ, a ≤ b →
      styleTier (get_cost_style (some a)) ≤ styleTier (get_cost_style (some b))) := by
  have hyg : ("yellow" : String) ≠ "green" := by decide
  have hrg : ("red" : String) ≠ "green" := by decide
  have hgy : ("green" : String) ≠ "yellow" := by decide
  have hry : ("red" : String) ≠ "yellow" := by decide
  have hgr : ("green" : String) ≠ "red" := by decide
  have hyr : ("yellow" : String) ≠ "red" := by decide
  refine ⟨?_, rfl, ?_, ?_, ?_, ?_⟩
  · intro c
    cases c with
    | none => exact Or.inl rfl
    | some x =>
        simp only [get_cost_style]
        split_ifs
        · exact Or.inl rfl
        · exact Or.inl rfl
        · exact Or.inr (Or.inl rfl)
        · exact Or.inr (Or.inr rfl)
  · intro x
    simp only [get_cost_style]
    split_ifs with h0 h1 h2 <;> constructor <;> intro h
    · exact Or.inl h0
    · rfl
    · exact Or.inr h1
    · rfl
    · exact absurd h hyg
    · rcases h with h | h
      · exact absurd h h0
      · exact absurd h h1
    · exact absurd h hrg
    · rcases h with h | h
      · exact absurd h h0
      · exact absurd h h1
  · intro x
    simp only [get_cost_style]
    split_ifs with h0 h1 h2 <;> constructor <;> intro h
    · exact absurd h hgy
    · rcases h with ⟨h, _⟩
      rw [h0] at h
      norm_num at h
    · exact absurd h hgy
    · linarith [h.1]
    · constructor <;> linarith [not_lt.mp h1]
    · rfl
    · exact absurd h hry
    · linarith [h.2]
  · intro x
    simp only [get_cost_style]
    split_ifs with h0 h1 h2 <;> constructor <;> intro h
    · exact absurd h hgr
    · rw [h0] at h
      norm_num at h
    · exact absurd h hgr
    · linarith
    · exact absurd h hyr
    · linarith
    · exact le_of_not_lt h2
    · rfl
  · intro a b hab
    have hscale : a * 1000000 ≤ b * 1000000 := by linarith
    simp only [get_cost_style]
    split_ifs <;> first | decide | linarith

/-- Witness for C10: monotonicity applied at the concrete pair 1 ≤ 2. -/
theorem get_cost_style_tiers_witness :
    (1 : ℚ) ≤ 2 ∧
    styleTier (get_cost_style (some 1)) ≤ styleTier (get_cost_style (some 2)) :=
  ⟨by decide, get_cost_style_tiers.2.2.2.2.2 1 2 (by decide)⟩

/-- C7: on the non-JSON path, an empty results list renders the
no-models-found message; a non-empty one renders the `Found {count} model(s)
for '{query}'` header and exactly one table row per record of the results
list, in list order. -/
theorem display_search_results_rendering :
    ∀ data : SearchData,
      (data.results.getD [] = [] →
        display_search_results data false =
          .noResults ("No models found for '" ++ data.query.getD "" ++ "'")) ∧
      (data.results.getD [] ≠ [] →
        display_search_results data false =
          .table ("Found " ++
              intRepr (data.count.getD ((data.results.getD []).length : ℤ)) ++
              " model(s) for '" ++ data.query.getD "" ++ "'")
            ((data.results.getD []).map search_result_row) ∧
        ((data.results.getD []).map search_result_row).length =
          (data.results.getD []).length ∧
        (∀ i : Nat, ((data.results.getD []).map search_result_row)[i]? =
          ((data.results.getD [])[i]?).map search_result_row)) := by
  intro data
  constructor
  · intro h
    simp [display_search_results, h]
  · intro h
    have hemp : (data.results.getD []).isEmpty = false := by
      cases hr : data.results.getD [] with
      | nil => exact absurd hr h
      | cons a l => rfl
    refine ⟨?_, by simp, fun i => ?_⟩
    · simp [display_search_results, hemp]
    · exact List.getElem?_map search_result_row (data.results.getD []) i

/-- A concrete one-record search payload, mirroring the mock payload of the
repository's own search test. -/
def sampleSearchRecord : SearchRecord :=
  { slug := some "claude-3-opus", provider := some "anthropic" }

/-- The search payload wrapping `sampleSearchRecord`. -/
def sampleSearchData : SearchData :=
  { results := some [sampleSearchRecord], count := some 1, query := some "claude" }

/-- Witness for C7: a one-record search payload renders as a table with its
one mapped row. -/
theorem display_search_results_rendering_witness :
    sampleSearchData.results.getD [] ≠ [] ∧
    display_search_results sampleSearchData false =
      .table ("Found " ++
          intRepr (sampleSearchData.count.getD ((sampleSearchData.results.getD []).length : ℤ)) ++
          " model(s) for '" ++ sampleSearchData.query.getD "" ++ "'")
        ((sampleSearchData.results.getD []).map search_result_row) := by
  have h : sampleSearchData.results.getD [] ≠ [] := by
    simp [sampleSearchData]
  exact ⟨h, ((display_search_results_rendering sampleSearchData).2 h).1⟩

/-- C9: `display_model` omits the cache pricing rows and each context-window
row not only when the field is absent but whenever its value equals 0
(presence is tested by Python truthiness), so a zero cache-read cost shows no
cache-read row. -/
theorem display_model_truthiness :
    ∀ data : ModelData,
      ("Cache read" ∈ rowKeys (display_model_pricing_rows data) ↔
        (∃ c, data.cache_read_input_token_cost = some c ∧ c ≠ 0)) ∧
      ("Cache write" ∈ rowKeys (display_model_pricing_rows data) ↔
        (∃ c, data.cache_creation_input_token_cost = some c ∧ c ≠ 0)) ∧
      ("Max input" ∈ rowKeys (display_model_context_rows data) ↔
        (∃ t, data.max_input_tokens = some t ∧ t ≠ 0)) ∧
      ("Max output" ∈ rowKeys (display_model_context_rows data) ↔
        (∃ t, data.max_output_tokens = some t ∧ t ≠ 0)) ∧
      ("Max total" ∈ rowKeys (display_model_context_rows data) ↔
        (∃ t, data.max_tokens = some t ∧ t ≠ 0)) ∧
      (data.cache_read_input_token_cost = some 0 →
        "Cache read" ∉ rowKeys (display_model_pricing_rows data)) := by
  have truthyQ : ∀ o : Option ℚ, pyTruthyQ o = true ↔ ∃ c, o = some c ∧ c ≠ 0 := by
    intro o
    cases o with
    | none => simp [pyTruthyQ]
    | some x =>
        simp only [pyTruthyQ]
        split_ifs with hx <;> simp_all
  have truthyZ : ∀ o : Option ℤ, pyTruthyZ o = true ↔ ∃ t, o = some t ∧ t ≠ 0 := by
    intro o
    cases o with
    | none => simp [pyTruthyZ]
    | some x =>
        simp only [pyTruthyZ]
        split_ifs with hx <;> simp_all
  intro data
  have hread : "Cache read" ∈ rowKeys (display_model_pricing_rows data) ↔
      (∃ c, data.cache_read_input_token_cost = some c ∧ c ≠ 0) := by
    rw [← truthyQ]
    simp only [display_model_pricing_rows, rowKeys]
    cases hA : pyTruthyQ data.cache_read_input_token_cost <;>
      cases hB : pyTruthyQ data.cache_creation_input_token_cost <;>
        simp [hA, hB]
  have hwrite : "Cache write" ∈ rowKeys (display_model_pricing_rows data) ↔
      (∃ c, data.cache_creation_input_token_cost = some c ∧ c ≠ 0) := by
    rw [← truthyQ]
    simp only [display_model_pricing_rows, rowKeys]
    cases hA : pyTruthyQ data.cache_read_input_token_cost <;>
      cases hB : pyTruthyQ data.cache_creation_input_token_cost <;>
        simp [hA, hB]
  have hmaxin : "Max input" ∈ rowKeys (display_model_context_rows data) ↔
      (∃ t, data.max_input_tokens = some t ∧ t ≠ 0) := by
    rw [← truthyZ]
    simp only [display_model_context_rows, rowKeys]
    cases hA : pyTruthyZ data.max_input_tokens <;>
      cases hB : pyTruthyZ data.max_output_tokens <;>
        cases hC : pyTruthyZ data.max_tokens <;>
          simp [hA, hB, hC]
  have hmaxout : "Max output" ∈ rowKeys (display_model_context_rows data) ↔
      (∃ t, data.max_output_tokens = some t ∧ t ≠ 0) := by
    rw [← truthyZ]
    simp only [display_model_context_rows, rowKeys]
    cases hA : pyTruthyZ data.max_input_tokens <;>
      cases hB : pyTruthyZ data.max_output_tokens <;>
        cases hC : pyTruthyZ data.max_tokens <;>
          simp [hA, hB, hC]
  have hmaxtot : "Max total" ∈ rowKeys (display_model_context_rows data) ↔
      (∃ t, data.max_tokens = some t ∧ t ≠ 0) := by
    rw [← truthyZ]
    simp only [display_model_context_rows, rowKeys]
    cases hA : pyTruthyZ data.max_input_tokens <;>
      cases hB : pyTruthyZ data.max_output_tokens <;>
        cases hC : pyTruthyZ data.max_tokens <;>
          simp [hA, hB, hC]
  refine ⟨hread, hwrite, hmaxin, hmaxout, hmaxtot, ?_⟩
  intro h0 hmem
  obtain ⟨c, hc, hc0⟩ := hread.mp hmem
  rw [h0, Option.some.injEq] at hc
  exact hc0 hc.symm

/-- Witness for C9: a model with a zero cache-read cost shows no cache-read
row. -/
theorem display_model_truthiness_witness :
    ({ cache_read_input_token_cost := some 0 } : ModelData).cache_read_input_token_cost =
      some 0 ∧
    "Cache read" ∉
      rowKeys (display_model_pricing_rows { cache_read_input_token_cost := some 0 }) :=
  ⟨rfl, (display_model_truthiness { cache_read_input_token_cost := some 0 }).2.2.2.2.2 rfl⟩

end Toktab
